import Mathlib

/-!
Shallow embedding of the acquisition–conversion–alarm pipeline of
`pyTempMonitor.pyw` (class `MainWindow`).  Real numbers of the Python
source (floats) are embedded as rationals `ℚ`; Python exceptions are
embedded as an explicit error type threaded through `Except` /
`Option`.  Each definition is translated from the named source
function; the only spec-side definition is `convert_specFormula`,
clearly marked below.
-/

namespace TempMonitor

/-- Kinds of Python runtime failures the modelled code paths can raise.
`outOfRange` is the spec's `ErrorKind=OutOfRange`; it is included so
that statements can compare against it — no modelled code path
produces it. -/
inductive PyErr where
  | zeroDivisionError
  | boundsValueError
  | indexValueError
  | indexError
  | buildValueError
  | parseValueError
  | typeErrorNone
  | keyError
  | outOfRange
deriving DecidableEq

/-- Python `list.index(x)`: position of the first occurrence of `x`,
`ValueError` when absent (used at `self.read_channels[key].index(i)`,
line 373). -/
def pyIndex (x : Nat) : List Nat → Except PyErr Nat
  | [] => .error .indexValueError
  | y :: ys =>
      if y = x then .ok 0
      else
        match pyIndex x ys with
        | .ok i => .ok (i + 1)
        | .error e => .error e

/-- Python `xs[i]` on a list of floats: `IndexError` out of range
(used at `self.resistances[key][...]`, line 373). -/
def pyGetQ : List ℚ → Nat → Except PyErr ℚ
  | [], _ => .error .indexError
  | x :: _, 0 => .ok x
  | _ :: xs, i + 1 => pyGetQ xs i

/-- Insertion step of the sort `scipy.interpolate.interp1d` applies to
its x-data (`assume_sorted=False` default): sort by resistance. -/
def sortIns (p : ℚ × ℚ) : List (ℚ × ℚ) → List (ℚ × ℚ)
  | [] => [p]
  | q :: qs => if p.1 ≤ q.1 then p :: q :: qs else q :: sortIns p qs

/-- Sort the reference points by resistance, as `interp1d` does before
interpolating. -/
def sortByRes : List (ℚ × ℚ) → List (ℚ × ℚ)
  | [] => []
  | p :: ps => sortIns p (sortByRes ps)

/-- `interp1d(resistances, temperatures)` construction
(`getThermistorData`, line 361): raises `ValueError` when fewer than
two data points are supplied; otherwise stores the points sorted by
resistance.  Duplicate or originally non-monotonic resistances are
accepted without error. -/
def buildInterp (pts : List (ℚ × ℚ)) : Except PyErr (List (ℚ × ℚ)) :=
  if pts.length < 2 then .error .buildValueError else .ok (sortByRes pts)

/-- `getThermistorData` (lines 357–363): builds the interpolation
table inside `try ... except Exception: print(...)`; every failure is
caught and logged, leaving `self.temp_interpolate_50k = None`. -/
def getThermistorData (pts : List (ℚ × ℚ)) : Option (List (ℚ × ℚ)) :=
  match buildInterp pts with
  | .ok t => some t
  | .error _ => none

/-- The calibration step of `MainWindow.__init__` (line 78): it calls
`getThermistorData` and always proceeds — no exception escapes, so
startup never fails because of calibration data. -/
def startupCalibration (pts : List (ℚ × ℚ)) :
    Except PyErr (Option (List (ℚ × ℚ))) :=
  .ok (getThermistorData pts)

/-- Linear interpolation on a sorted table, first point `p`, rest
`ps`, at abscissa `r` (already bounds-checked): find the bracketing
segment and interpolate, exactly scipy's piecewise-linear rule. -/
def interpGo (p : ℚ × ℚ) : List (ℚ × ℚ) → ℚ → ℚ
  | [], _ => p.2
  | q :: qs, r =>
      if r ≤ q.1 then p.2 + (q.2 - p.2) * (r - p.1) / (q.1 - p.1)
      else interpGo q qs r

/-- Evaluation `self.temp_interpolate_50k(r)` of the built `interp1d`
object: with the default `bounds_error=True`, an abscissa below the
smallest or above the largest tabulated resistance raises
`ValueError`; otherwise linear interpolation. -/
def interpLookup (tbl : List (ℚ × ℚ)) (r : ℚ) : Except PyErr ℚ :=
  match tbl with
  | [] => .error .boundsValueError
  | p :: ps =>
      if r < p.1 ∨ (ps.getLastD p).1 < r then .error .boundsValueError
      else .ok (interpGo p ps r)

/-- Per-device configuration state loaded by `getConfig`
(lines 103–144): configured excitation voltage `VIN`, the
channel-number list `read_channels[key]`, the per-channel reference
resistances, and the per-channel alarm thresholds `max_temps[key]`. -/
structure DevCfg where
  vin : ℚ
  read_channels : List Nat
  resistances : List ℚ
  max_temps : List ℚ

/-- Body of the loop of `processVoltage` (lines 369–376) for a single
raw reading `(mV, channelAddress)`:
`v = mV/1000`; `vin = 2.5` — the literal in line 372, the configured
`self.vin[key]` is commented out there; `r1` looked up through
`read_channels.index` and the resistance list;
`r = (r1*v)/(vin - v)` raising `ZeroDivisionError` when `vin == v`;
then `temp_interpolate_50k(r)` — a `TypeError` when the table is
`None`, the interpolation result otherwise.  Returns the pair
`(temperature, resistance)` appended to the two result lists. -/
def convertOne (cfg : DevCfg) (tbl : Option (List (ℚ × ℚ)))
    (mv : ℚ × Nat) : Except PyErr (ℚ × ℚ) :=
  let v : ℚ := mv.1 / 1000
  let vin : ℚ := 5 / 2
  match pyIndex mv.2 cfg.read_channels with
  | .error e => .error e
  | .ok idx =>
    match pyGetQ cfg.resistances idx with
    | .error e => .error e
    | .ok r1 =>
      if vin = v then .error .zeroDivisionError
      else
        let r : ℚ := r1 * v / (vin - v)
        match tbl with
        | none => .error .typeErrorNone
        | some t =>
          match interpLookup t r with
          | .error e => .error e
          | .ok temp => .ok (temp, r)

/-- `processVoltage` (lines 365–377): iterate over the raw readings in
hardware order, converting each; the first exception aborts the whole
call (the partially built local lists are discarded), otherwise the
lists of temperatures and of resistances are returned. -/
def processVoltage (cfg : DevCfg) (tbl : Option (List (ℚ × ℚ))) :
    List (ℚ × Nat) → Except PyErr (List ℚ × List ℚ)
  | [] => .ok ([], [])
  | mv :: mvs =>
      match convertOne cfg tbl mv with
      | .error e => .error e
      | .ok (t, r) =>
        match processVoltage cfg tbl mvs with
        | .error e => .error e
        | .ok (ts, rs) => .ok (t :: ts, r :: rs)

/-- Body of the per-channel loop of `check_alarms` (lines 327–333) for
one channel with threshold `thr`, current latch `latch` and measured
temperature `t`: when `t > thr` and the latch is down, an alarm email
is sent (the emitted event) and the latch is raised; when `t > thr`
with the latch already up, nothing happens; when `t <= thr` the latch
is lowered without an event.  Returns `(new latch, event emitted)`. -/
def alarmStep (thr : ℚ) (latch : Bool) (t : ℚ) : Bool × Bool :=
  if thr < t then (true, !latch) else (false, false)

/-- The event stream one fixed channel produces over successive
acquisition cycles: fold `alarmStep` (the `check_alarms` body for that
channel) over the temperature sequence, recording for each reading
whether an alarm event was emitted. -/
def alarmTrace (thr : ℚ) : Bool → List ℚ → List Bool
  | _, [] => []
  | latch, t :: ts =>
      let s := alarmStep thr latch t
      s.2 :: alarmTrace thr s.1 ts

/-- Flags marking the first index of each maximal contiguous run of
`true` in a boolean stream, given the previous value `prev` (the
formalisation of "one event per maximal contiguous run, at the run's
first index"). -/
def runStartFlags : Bool → List Bool → List Bool
  | _, [] => []
  | prev, b :: bs => (b && !prev) :: runStartFlags b bs

/-- One cycle of `check_alarms` (lines 324–333) over all channels of a
device: `enumerate(temp)` with indexed access into `max_temps[key]`
and `alarm_triggered[key]`.  A missing threshold or latch entry raises
`IndexError` mid-loop, leaving the latches of earlier indices already
updated.  Returns the updated latch list, the per-index event flags
for the channels processed, and the error if one was raised. -/
def check_alarms : List ℚ → List ℚ → List Bool →
    List Bool × List Bool × Option PyErr
  | _, [], lats => (lats, [], none)
  | [], _ :: _, lats => (lats, [], some .indexError)
  | _ :: _, _ :: _, [] => ([], [], some .indexError)
  | thr :: thrs, t :: ts, lat :: lats =>
      let s := alarmStep thr lat t
      let rest := check_alarms thrs ts lats
      (s.1 :: rest.1, s.2 :: rest.2.1, rest.2.2)

/-- Python slice `xs[-k:]` for a non-negative `k` (lines 260, 265):
for `k = 0` the slice bound is `-0 == 0`, so the WHOLE list is
returned; for `k > 0` the last `min k (length xs)` elements. -/
def pySliceLast (k : Nat) (xs : List α) : List α :=
  if k = 0 then xs else xs.drop (xs.length - k)

/-- The display window of `update_plot` (lines 257–260):
`max_points = min(log_max, len(time_data))` followed by the slice
`time_data[-max_points:]` (and the same column slice on the data
matrices). -/
def recentWindow (n : Nat) (xs : List α) : List α :=
  pySliceLast (min n xs.length) xs

/-- The list comprehension `[float(entry.get()) for entry in entries]`
(line 289): each entry either parses to a number or raises
`ValueError`, and the first failure aborts the whole comprehension
before anything is assigned.  An entry is embedded as the outcome of
`float` on its text: `some q` when it parses, `none` when it raises. -/
def parseEntries : List (Option ℚ) → Except PyErr (List ℚ)
  | [] => .ok []
  | none :: _ => .error .parseValueError
  | some q :: es =>
      match parseEntries es with
      | .ok qs => .ok (q :: qs)
      | .error e => .error e

/-- Per-device body of `update_max_temps` (lines 288–294): parse all
of the device's entry fields; on success replace the device's
threshold list, on `ValueError` print a message and leave the previous
list intact. -/
def update_max_temps_device (old : List ℚ) (entries : List (Option ℚ)) :
    List ℚ :=
  match parseEntries entries with
  | .ok ts => ts
  | .error _ => old

/-- `update_max_temps` (lines 285–294): the devices are processed
independently in the loop over `max_temp_entries.items()`; each
device's threshold list is replaced or kept by
`update_max_temps_device`. -/
def update_max_temps (olds : List (List ℚ)) (entries : List (List (Option ℚ))) :
    List (List ℚ) :=
  List.zipWith update_max_temps_device olds entries

/-- Per-device mutable acquisition state: the columns of
`temp_data[key]` and `voltage_data[key]` (one column per cycle,
appended by `np.hstack`) and the latch list `alarm_triggered[key]`. -/
structure DevState where
  temp_data : List (List ℚ)
  voltage_data : List (List ℚ)
  alarm_triggered : List Bool

/-- Whole-monitor mutable state touched by a cycle: the shared
timestamp list `time_data` and the per-device states, in `ljsID`
order. -/
structure MonState where
  time_data : List ℚ
  devs : List DevState

/-- The external effects one cycle consumes: the outcome of
`self.ljs.read()` (either the per-device raw readings, in `ljsID`
order, or the exception it raised), the outcome of each device's
`self.log.log(...)` call (`none` when it returned, the exception
otherwise), and the cycle timestamp. -/
structure CycleInput where
  readResult : Except PyErr (List (List (ℚ × Nat)))
  logResults : List (Option PyErr)
  now : ℚ

/-- Per-device section of the loop body of `update_data`
(lines 230–243): convert the device's raw readings; on success append
the temperature and raw-voltage columns, then log (which may raise),
then run `check_alarms` (which may raise after partially updating the
latches).  The first exception stops the device's processing with the
mutations made so far kept, exactly as in Python. -/
def runDevice (cfg : DevCfg) (tbl : Option (List (ℚ × ℚ)))
    (volts : List (ℚ × Nat)) (logRes : Option PyErr) (d : DevState) :
    DevState × Option PyErr :=
  match processVoltage cfg tbl volts with
  | .error e => (d, some e)
  | .ok (temp, _res) =>
      let d1 : DevState :=
        { d with
          temp_data := d.temp_data ++ [temp]
          voltage_data := d.voltage_data ++ [volts.map Prod.fst] }
      match logRes with
      | some e => (d1, some e)
      | none =>
          let a := check_alarms cfg.max_temps temp d.alarm_triggered
          ({ d1 with alarm_triggered := a.1 }, a.2.2)

/-- The loop `for key in self.ljsID:` of `update_data` (line 230):
devices are processed in order; the first uncaught exception aborts
the remainder of the loop, leaving the states already written.  A
device whose readings are missing from the `read()` result raises
`KeyError` at `voltages[key]`; a device with no state entry raises
`KeyError` at `self.temp_data[key]`. -/
def runDevices (tbl : Option (List (ℚ × ℚ))) :
    List DevCfg → List (List (ℚ × Nat)) → List (Option PyErr) →
    List DevState → List DevState × Option PyErr
  | [], _, _, ds => (ds, none)
  | _ :: _, [], _, ds => (ds, some .keyError)
  | _ :: _, _ :: _, _, [] => ([], some .keyError)
  | cfg :: cfgs, vs :: vss, logs, d :: ds =>
      let r := runDevice cfg tbl vs (logs.headD none) d
      match r.2 with
      | some e => (r.1 :: ds, some e)
      | none =>
          let rest := runDevices tbl cfgs vss logs.tail ds
          (r.1 :: rest.1, rest.2)

/-- `update_data` (lines 223–250): the whole cycle body runs inside
`try ... except Exception: print(...)`; whatever happens,
`self.after(self.timer_value, self.update_data)` on line 250 is
OUTSIDE the `try` block and is executed unconditionally, so the next
cycle is always scheduled.  Returns the state after the cycle (with
any partial mutations a caught exception left behind) together with
the schedule flag. -/
def update_data (cfgs : List DevCfg) (tbl : Option (List (ℚ × ℚ)))
    (inp : CycleInput) (st : MonState) : MonState × Bool :=
  match inp.readResult with
  | .error _ => (st, true)
  | .ok volts =>
      let st1 : MonState := { st with time_data := st.time_data ++ [inp.now] }
      let r := runDevices tbl cfgs volts inp.logResults st1.devs
      ({ st1 with devs := r.1 }, true)

/-- Modelled from the spec (refinement comparison only, §4.2): the
claimed voltage-divider formula with the DEVICE'S CONFIGURED
excitation voltage `vin`:
`resistance = referenceResistance * voltage / (Vin - voltage)` with
`voltage = rawMillivolt / 1000`.  This is the spec's words, to be
compared with what `convertOne` computes. -/
def convert_specFormula (vin r1 mv : ℚ) : ℚ :=
  r1 * (mv / 1000) / (vin - mv / 1000)

/-- Concrete calibration table for witnesses: strictly increasing
resistances, decreasing temperatures (a thermistor datasheet slice
after the reversal in `getThermistorData`). -/
def tblA : List (ℚ × ℚ) := [(5000, 50), (10000, 25), (20000, 0)]

/-- Concrete two-channel device configuration with configured
`VIN = 2.5`. -/
def cfgA : DevCfg := ⟨5/2, [0, 1], [10000, 10000], [50, 50]⟩

/-- Concrete one-channel device configuration with configured
`VIN = 5` (different from the literal `2.5` in `processVoltage`). -/
def cfgB : DevCfg := ⟨5, [0], [10000], [50]⟩

/-- Concrete one-channel device configuration with configured
`VIN = 2.5`, reference resistance 10 kΩ. -/
def cfgC : DevCfg := ⟨5/2, [0], [10000], [100]⟩

lemma alarmTrace_eq_runStartFlags (thr : ℚ) :
    ∀ (latch : Bool) (ts : List ℚ),
      alarmTrace thr latch ts =
        runStartFlags latch (ts.map fun t => decide (thr < t)) := by
  intro latch ts
  induction ts generalizing latch with
  | nil => rfl
  | cons t ts ih =>
    by_cases h : thr < t
    · simp [alarmTrace, runStartFlags, alarmStep, h, ih]
    · simp [alarmTrace, runStartFlags, alarmStep, h, ih]

/-- Claim C2 (confirmed): over any finite temperature sequence with a
fixed threshold, the latch of `check_alarms` emits exactly one event
per maximal contiguous run of temperatures strictly above the
threshold — the event stream equals the run-start flags of the
exceedance stream; a reading at or below the threshold re-arms the
latch and never emits an event; and for threshold 50 on
`[48, 52, 53, 49, 51]` events occur exactly at indices 1 and 4. -/
theorem C2_alarm_one_event_per_run :
    (∀ (thr : ℚ) (latch : Bool) (ts : List ℚ),
        alarmTrace thr latch ts =
          runStartFlags latch (ts.map fun t => decide (thr < t))) ∧
    (∀ (thr t : ℚ) (latch : Bool), t ≤ thr →
        alarmStep thr latch t = (false, false)) ∧
    alarmTrace 50 false [48, 52, 53, 49, 51] =
      [false, true, false, false, true] := by
  refine ⟨alarmTrace_eq_runStartFlags, ?_, ?_⟩
  · intro thr t latch h
    simp [alarmStep, not_lt.mpr h]
  · norm_num [alarmTrace, alarmStep]

/-- Witness for C2: the re-arm hypothesis discharged at threshold 50,
temperature 49, latch up. -/
theorem C2_alarm_one_event_per_run_witness :
    (49 : ℚ) ≤ 50 ∧ alarmStep 50 true 49 = (false, false) :=
  ⟨by norm_num, C2_alarm_one_event_per_run.2.1 50 49 true (by norm_num)⟩

/-- Claim C6 (corrected) — counterexample: with requested window size
0 and five buffered samples, the slice `[-0:]` returns the whole
history (five samples), not `min 0 5 = 0` samples. -/
theorem C6_counterexample :
    recentWindow 0 [(0 : ℚ), 1, 2, 3, 4] = [0, 1, 2, 3, 4] ∧
    (recentWindow 0 [(0 : ℚ), 1, 2, 3, 4]).length ≠
      min 0 ([(0 : ℚ), 1, 2, 3, 4]).length := by
  constructor
  · norm_num [recentWindow, pySliceLast]
  · norm_num [recentWindow, pySliceLast]

/-- Claim C6 (corrected, amended): for every requested window size
`n ≥ 1`, the window has exactly `min n L` elements and is a suffix of
the buffer (hence the most recent samples in chronological order);
the `n = 0` case instead returns the whole history.  The concrete
scenario holds: a window of 3 over `[t0..t4]` is `[t2, t3, t4]`. -/
theorem C6_recentWindow_amended :
    (∀ (α : Type) (n : Nat) (xs : List α), 1 ≤ n →
        (recentWindow n xs).length = min n xs.length ∧
        ∃ pre, xs = pre ++ recentWindow n xs) ∧
    recentWindow 3 [0, 1, 2, 3, 4] = [2, 3, 4] := by
  constructor
  · intro α n xs hn
    by_cases hx : xs = []
    · subst hx
      exact ⟨by simp [recentWindow, pySliceLast], [], by simp [recentWindow, pySliceLast]⟩
    · have hL : 1 ≤ xs.length := List.length_pos.mpr hx
      have hk : ¬ min n xs.length = 0 := by omega
      constructor
      · simp only [recentWindow, pySliceLast, if_neg hk, List.length_drop]
        omega
      · refine ⟨xs.take (xs.length - min n xs.length), ?_⟩
        simp only [recentWindow, pySliceLast, if_neg hk]
        exact (List.take_append_drop _ xs).symm
  · norm_num [recentWindow, pySliceLast]

/-- Witness for C6: the amended window law discharged at `n = 3` on a
five-sample buffer. -/
theorem C6_recentWindow_amended_witness :
    1 ≤ 3 ∧
    ((recentWindow 3 [(10 : ℚ), 11, 12, 13, 14]).length =
        min 3 ([(10 : ℚ), 11, 12, 13, 14]).length ∧
      ∃ pre, [(10 : ℚ), 11, 12, 13, 14] =
        pre ++ recentWindow 3 [(10 : ℚ), 11, 12, 13, 14]) :=
  ⟨by norm_num,
    C6_recentWindow_amended.1 ℚ 3 [10, 11, 12, 13, 14] (by norm_num)⟩

/-- Claim C8 (confirmed): no failure inside a cycle stops the periodic
driver — whatever the `read()` outcome, the per-device log outcomes
and the conversion/alarm results (all failure channels of the cycle
body, caught by the `try`/`except` of `update_data`), the rescheduling
call after the `try` block always happens. -/
theorem C8_cycle_always_reschedules :
    ∀ (cfgs : List DevCfg) (tbl : Option (List (ℚ × ℚ)))
      (inp : CycleInput) (st : MonState),
      (update_data cfgs tbl inp st).2 = true := by
  intro cfgs tbl inp st
  cases h : inp.readResult <;> simp [update_data, h]

/-- Claim C9 (confirmed): when `processVoltage` succeeds it returns
one temperature and one resistance per raw reading — both lists have
exactly the input's length and the i-th entries are the conversion of
the i-th raw reading, in hardware order (`Forall₂` pairs the readings
with the zipped outputs positionally). -/
theorem C9_processVoltage_pointwise :
    ∀ (cfg : DevCfg) (tbl : Option (List (ℚ × ℚ)))
      (mvs : List (ℚ × Nat)) (ts rs : List ℚ),
      processVoltage cfg tbl mvs = .ok (ts, rs) →
      ts.length = mvs.length ∧ rs.length = mvs.length ∧
      List.Forall₂ (fun mv p => convertOne cfg tbl mv = .ok p)
        mvs (ts.zip rs) := by
  intro cfg tbl mvs
  induction mvs with
  | nil =>
    intro ts rs h
    simp only [processVoltage, Except.ok.injEq, Prod.mk.injEq] at h
    obtain ⟨h1, h2⟩ := h
    subst h1
    subst h2
    simp
  | cons mv mvs ih =>
    intro ts rs h
    cases hcv : convertOne cfg tbl mv with
    | error e => simp [processVoltage, hcv] at h
    | ok p =>
      obtain ⟨t, r⟩ := p
      cases hpv : processVoltage cfg tbl mvs with
      | error e => simp [processVoltage, hcv, hpv] at h
      | ok q =>
        obtain ⟨ts1, rs1⟩ := q
        simp only [processVoltage, hcv, hpv, Except.ok.injEq,
          Prod.mk.injEq] at h
        obtain ⟨h1, h2⟩ := h
        subst h1
        subst h2
        obtain ⟨hl1, hl2, hf⟩ := ih ts1 rs1 hpv
        exact ⟨by simp [hl1], by simp [hl2], List.Forall₂.cons hcv hf⟩

/-- Witness for C9: the pointwise law discharged on a concrete
successful two-reading conversion. -/
theorem C9_processVoltage_pointwise_witness :
    ([(25 : ℚ), 25]).length = ([((1250 : ℚ), 0), (1250, 1)]).length ∧
    ([(10000 : ℚ), 10000]).length = ([((1250 : ℚ), 0), (1250, 1)]).length ∧
    List.Forall₂
      (fun mv p => convertOne cfgA (some tblA) mv = .ok p)
      [((1250 : ℚ), 0), (1250, 1)]
      (([(25 : ℚ), 25]).zip [(10000 : ℚ), 10000]) :=
  C9_processVoltage_pointwise cfgA (some tblA)
    [(1250, 0), (1250, 1)] [25, 25] [10000, 10000]
    (by norm_num [processVoltage, convertOne, cfgA, tblA, pyIndex, pyGetQ,
      interpLookup, interpGo])

lemma parseEntries_of_mem_none :
    ∀ (es : List (Option ℚ)), none ∈ es →
      parseEntries es = .error .parseValueError := by
  intro es
  induction es with
  | nil => intro h; simp at h
  | cons e es ih =>
    intro h
    cases e with
    | none => rfl
    | some q =>
      have h2 : none ∈ es := by simpa using h
      simp [parseEntries, ih h2]

lemma parseEntries_map_some :
    ∀ vs : List ℚ, parseEntries (vs.map some) = .ok vs := by
  intro vs
  induction vs with
  | nil => rfl
  | cons v vs ih => simp [parseEntries, ih]

lemma getD_zipWith_update :
    ∀ (as : List (List ℚ)) (bs : List (List (Option ℚ))) (i : Nat),
      as.length = bs.length →
      (List.zipWith update_max_temps_device as bs).getD i [] =
        if i < as.length then
          update_max_temps_device (as.getD i []) (bs.getD i [])
        else [] := by
  intro as
  induction as with
  | nil =>
    intro bs i h
    cases bs with
    | nil => simp
    | cons b bs => simp at h
  | cons a as ih =>
    intro bs i h
    cases bs with
    | nil => simp at h
    | cons b bs =>
      cases i with
      | zero => simp
      | succ i =>
        have h2 : as.length = bs.length := by simpa using h
        have h3 := ih bs i h2
        simp only [List.zipWith_cons_cons, List.getD_cons_succ,
          List.length_cons, Nat.succ_lt_succ_iff]
        exact h3

/-- Claim C10 (confirmed): threshold updates are all-or-nothing per
device — a device whose entry list contains a parse failure keeps its
previous threshold list unchanged, while any device whose entries all
parse gets exactly the parsed values, independently of the other
devices. -/
theorem C10_threshold_update_atomic :
    ∀ (olds : List (List ℚ)) (entries : List (List (Option ℚ))) (i : Nat),
      olds.length = entries.length →
      (none ∈ entries.getD i [] →
        (update_max_temps olds entries).getD i [] = olds.getD i []) ∧
      (∀ vs : List ℚ, entries.getD i [] = vs.map some →
        (update_max_temps olds entries).getD i [] = vs) := by
  intro olds entries i h
  have hz := getD_zipWith_update olds entries i h
  by_cases hi : i < olds.length
  · rw [update_max_temps, hz, if_pos hi]
    constructor
    · intro hn
      simp only [update_max_temps_device]
      rw [parseEntries_of_mem_none _ hn]
    · intro vs hvs
      simp only [update_max_temps_device]
      rw [hvs, parseEntries_map_some]
  · have he : entries.getD i [] = [] := by
      apply List.getD_eq_default
      omega
    have ho : olds.getD i [] = [] := by
      apply List.getD_eq_default
      omega
    rw [update_max_temps, hz, if_neg hi, ho]
    constructor
    · intro _
      rfl
    · intro vs hvs
      rw [he] at hvs
      cases vs with
      | nil => rfl
      | cons v vs => simp at hvs

/-- Witness for C10: two devices, the first with an unparseable entry
(kept), the second fully parseable (replaced). -/
theorem C10_threshold_update_atomic_witness :
    (update_max_temps [[(10 : ℚ)], [20]] [[none], [some 30]]).getD 0 []
        = [(10 : ℚ)] ∧
    (update_max_temps [[(10 : ℚ)], [20]] [[none], [some 30]]).getD 1 []
        = [(30 : ℚ)] := by
  constructor
  · have h := (C10_threshold_update_atomic [[(10 : ℚ)], [20]]
      [[none], [some 30]] 0 (by simp)).1 (by simp)
    simpa using h
  · exact (C10_threshold_update_atomic [[(10 : ℚ)], [20]]
      [[none], [some 30]] 1 (by simp)).2 [30] (by rfl)

/-- Claim C1 (corrected) — counterexample: at raw reading 2500 mV
(derived voltage 2.5 V, equal to the excitation voltage) the
conversion raises `ZeroDivisionError` — exactly the division by zero
the claim says is replaced by an explicit `OutOfRange` failure; no
`OutOfRange` error exists in the code. -/
theorem C1_counterexample :
    convertOne cfgA (some tblA) (2500, 0) = .error .zeroDivisionError ∧
    PyErr.zeroDivisionError ≠ PyErr.outOfRange := by
  constructor
  · norm_num [convertOne, cfgA, pyIndex, pyGetQ]
  · decide

/-- Claim C1 (corrected, amended): for derived voltage at or above
the hardcoded excitation 2.5 V the conversion never yields a sample,
but not through an explicit `OutOfRange` error: at exactly 2.5 V the
division raises `ZeroDivisionError`, and above it the negative
resistance falls below the calibration domain and the interpolation
bounds check raises `ValueError` (given a positive reference
resistance and non-negative tabulated resistances). -/
theorem C1_fails_at_or_above_excitation :
    ∀ (cfg : DevCfg) (tbl : List (ℚ × ℚ)) (raw : ℚ) (i idx : Nat) (r1 : ℚ),
      pyIndex i cfg.read_channels = .ok idx →
      pyGetQ cfg.resistances idx = .ok r1 →
      0 < r1 →
      (∀ p ∈ tbl, 0 ≤ p.1) →
      2500 ≤ raw →
      convertOne cfg (some tbl) (raw, i) = .error .zeroDivisionError ∨
      convertOne cfg (some tbl) (raw, i) = .error .boundsValueError := by
  intro cfg tbl raw i idx r1 hidx hget hr1 htbl hraw
  by_cases heq : (5 / 2 : ℚ) = raw / 1000
  · left
    simp [convertOne, hidx, hget, if_pos heq]
  · right
    have hv : (5 / 2 : ℚ) < raw / 1000 := by
      rcases lt_or_eq_of_le (by linarith : (5 / 2 : ℚ) ≤ raw / 1000)
        with h | h
      · exact h
      · exact absurd h heq
    have hrneg : r1 * (raw / 1000) / (5 / 2 - raw / 1000) < 0 := by
      apply div_neg_of_pos_of_neg
      · exact mul_pos hr1 (by linarith)
      · linarith
    simp only [convertOne, hidx, hget]
    rw [if_neg heq]
    cases tbl with
    | nil => simp [interpLookup]
    | cons p ps =>
      have hp : (0 : ℚ) ≤ p.1 := htbl p (by simp)
      have hlt : r1 * (raw / 1000) / (5 / 2 - raw / 1000) < p.1 :=
        lt_of_lt_of_le hrneg hp
      simp [interpLookup, hlt]

/-- Witness for C1: the amended failure law discharged at raw reading
2500 mV on channel 1 of the concrete two-channel device. -/
theorem C1_fails_at_or_above_excitation_witness :
    (0 : ℚ) < 10000 ∧ (2500 : ℚ) ≤ 2500 ∧
    (convertOne cfgA (some tblA) (2500, 1) = .error .zeroDivisionError ∨
      convertOne cfgA (some tblA) (2500, 1) = .error .boundsValueError) :=
  ⟨by norm_num, by norm_num,
    C1_fails_at_or_above_excitation cfgA tblA 2500 1 1 10000
      (by norm_num [pyIndex, cfgA]) (by norm_num [pyGetQ, cfgA])
      (by norm_num)
      (by
        intro p hp
        simp only [tblA, List.mem_cons, List.not_mem_nil, or_false] at hp
        rcases hp with rfl | rfl | rfl <;> norm_num)
      (by norm_num)⟩

/-- Claim C3 (corrected) — counterexample: with channel 0 reading
2500 mV (conversion fails) and channel 1 reading 1250 mV (conversion
of that channel alone succeeds), `processVoltage` for the device
propagates the exception and produces NO samples at all — the other
channel's valid sample is lost, not merely the failing one omitted. -/
theorem C3_counterexample :
    processVoltage cfgA (some tblA) [(2500, 0), (1250, 1)] =
        .error .zeroDivisionError ∧
    convertOne cfgA (some tblA) (1250, 1) = .ok (25, 10000) := by
  constructor
  · norm_num [processVoltage, convertOne, cfgA, pyIndex, pyGetQ]
  · norm_num [convertOne, cfgA, tblA, pyIndex, pyGetQ, interpLookup,
      interpGo]

/-- Claim C3 (corrected, amended): a conversion failure on one channel
aborts the conversion of the WHOLE device for that cycle — whatever
readings follow the failing one (and however many preceding channels
converted cleanly), `processVoltage` returns the first error and no
channel of the device gets a sample; the exception is then caught at
cycle level by `update_data`. -/
theorem C3_failure_aborts_device :
    ∀ (cfg : DevCfg) (tbl : Option (List (ℚ × ℚ)))
      (xs ys : List (ℚ × Nat)) (x : ℚ × Nat) (e : PyErr),
      (∀ z ∈ xs, ∃ v, convertOne cfg tbl z = .ok v) →
      convertOne cfg tbl x = .error e →
      processVoltage cfg tbl (xs ++ x :: ys) = .error e := by
  intro cfg tbl xs
  induction xs with
  | nil =>
    intro ys x e hall hx
    simp [processVoltage, hx]
  | cons z zs ih =>
    intro ys x e hall hx
    obtain ⟨v, hv⟩ := hall z (by simp)
    obtain ⟨t, r⟩ := v
    have hall2 : ∀ z2 ∈ zs, ∃ v, convertOne cfg tbl z2 = .ok v := by
      intro z2 hz2
      exact hall z2 (by simp [hz2])
    simp [processVoltage, hv, ih ys x e hall2 hx]

/-- Witness for C3: the abort law discharged with one clean channel
before the failing one. -/
theorem C3_failure_aborts_device_witness :
    (∀ z ∈ [((1250 : ℚ), 1)], ∃ v, convertOne cfgA (some tblA) z = .ok v) ∧
    convertOne cfgA (some tblA) (2500, 0) = .error .zeroDivisionError ∧
    processVoltage cfgA (some tblA) [(1250, 1), (2500, 0)] =
      .error .zeroDivisionError := by
  have hgood : ∀ z ∈ [((1250 : ℚ), 1)],
      ∃ v, convertOne cfgA (some tblA) z = .ok v := by
    intro z hz
    simp only [List.mem_singleton] at hz
    subst hz
    exact ⟨(25, 10000), by norm_num [convertOne, cfgA, tblA, pyIndex,
      pyGetQ, interpLookup, interpGo]⟩
  have hbad : convertOne cfgA (some tblA) (2500, 0) =
      .error .zeroDivisionError := by
    norm_num [convertOne, cfgA, pyIndex, pyGetQ]
  exact ⟨hgood, hbad,
    C3_failure_aborts_device cfgA (some tblA) [(1250, 1)] [] (2500, 0)
      .zeroDivisionError hgood hbad⟩

/-- Claim C4 (corrected) — counterexample: on a device with configured
`VIN = 5` and raw reading 3000 mV (voltage 3 V, inside `[0, VIN)`),
the claimed formula gives resistance 15000 Ω, but the code uses the
hardcoded literal `2.5`, computes −60000 Ω, and fails the calibration
bounds check instead of returning the claimed value. -/
theorem C4_counterexample :
    convertOne cfgB (some tblA) (3000, 0) = .error .boundsValueError ∧
    convert_specFormula cfgB.vin 10000 3000 = 15000 ∧
    convert_specFormula (5 / 2) 10000 3000 = -60000 := by
  refine ⟨?_, by norm_num [convert_specFormula, cfgB], by
    norm_num [convert_specFormula]⟩
  norm_num [convertOne, cfgB, pyIndex, pyGetQ, interpLookup, interpGo,
    tblA]

/-- Claim C4 (corrected, amended): the conversion applies the
voltage-divider formula with the HARDCODED excitation 2.5 V — the
device's configured `vin` is ignored; whenever the raw reading is not
2500 mV and the resulting resistance is inside the calibration domain,
`convertOne` returns exactly
`r1 * (raw/1000) / (2.5 - raw/1000)` as the resistance. -/
theorem C4_hardcoded_excitation :
    ∀ (cfg : DevCfg) (tbl : List (ℚ × ℚ)) (raw : ℚ) (i idx : Nat)
      (r1 t : ℚ),
      pyIndex i cfg.read_channels = .ok idx →
      pyGetQ cfg.resistances idx = .ok r1 →
      raw ≠ 2500 →
      interpLookup tbl (convert_specFormula (5 / 2) r1 raw) = .ok t →
      convertOne cfg (some tbl) (raw, i) =
        .ok (t, convert_specFormula (5 / 2) r1 raw) := by
  intro cfg tbl raw i idx r1 t hidx hget hraw hint
  have hne : ¬ (5 / 2 : ℚ) = raw / 1000 := by
    intro he
    apply hraw
    field_simp at he
    linarith
  simp only [convert_specFormula] at hint ⊢
  simp only [convertOne, hidx, hget]
  rw [if_neg hne, hint]

/-- Witness for C4: the hardcoded-excitation law discharged on the
`VIN = 5` device at raw reading 1250 mV. -/
theorem C4_hardcoded_excitation_witness :
    pyIndex 0 cfgB.read_channels = .ok 0 ∧
    pyGetQ cfgB.resistances 0 = .ok 10000 ∧
    (1250 : ℚ) ≠ 2500 ∧
    interpLookup tblA (convert_specFormula (5 / 2) 10000 1250) = .ok 25 ∧
    convertOne cfgB (some tblA) (1250, 0) =
      .ok (25, convert_specFormula (5 / 2) 10000 1250) :=
  ⟨by norm_num [pyIndex, cfgB], by norm_num [pyGetQ, cfgB], by norm_num,
    by norm_num [interpLookup, interpGo, tblA, convert_specFormula],
    C4_hardcoded_excitation cfgB tblA 1250 0 0 10000 25
      (by norm_num [pyIndex, cfgB]) (by norm_num [pyGetQ, cfgB])
      (by norm_num)
      (by norm_num [interpLookup, interpGo, tblA, convert_specFormula])⟩

/-- Claim C5 (corrected) — counterexample: an empty reference dataset
makes the table construction raise (`ValueError`, not a dedicated
`InvalidCalibration` kind), but `getThermistorData` catches and logs
every exception, so startup COMPLETES with no table
(`startupCalibration` returns `.ok none` instead of refusing to
start); moreover duplicate resistances do not fail the build at
all. -/
theorem C5_counterexample :
    startupCalibration ([] : List (ℚ × ℚ)) = .ok none ∧
    buildInterp ([] : List (ℚ × ℚ)) = .error .buildValueError ∧
    buildInterp [((1 : ℚ), (25 : ℚ)), (1, 30)] = .ok [(1, 25), (1, 30)] := by
  refine ⟨rfl, rfl, ?_⟩
  norm_num [buildInterp, sortByRes, sortIns]

/-- Claim C5 (corrected, amended): a malformed reference dataset
(fewer than two points) fails the `interp1d` construction, but the
failure is swallowed — startup proceeds with no interpolation table,
and every later conversion then fails at runtime instead (no
conversion with a `None` table ever returns a sample). -/
theorem C5_calibration_not_fatal :
    (∀ pts : List (ℚ × ℚ), pts.length < 2 →
        buildInterp pts = .error .buildValueError ∧
        startupCalibration pts = .ok none) ∧
    (∀ (cfg : DevCfg) (x : ℚ × Nat) (v : ℚ × ℚ),
        convertOne cfg none x ≠ .ok v) := by
  constructor
  · intro pts h
    have hb : buildInterp pts = .error .buildValueError := by
      simp [buildInterp, h]
    exact ⟨hb, by simp [startupCalibration, getThermistorData, hb]⟩
  · intro cfg x v h
    cases h1 : pyIndex x.2 cfg.read_channels with
    | error e => simp [convertOne, h1] at h
    | ok idx =>
      cases h2 : pyGetQ cfg.resistances idx with
      | error e => simp [convertOne, h1, h2] at h
      | ok r1 =>
        by_cases h3 : (5 / 2 : ℚ) = x.1 / 1000
        · simp [convertOne, h1, h2, if_pos h3] at h
        · simp [convertOne, h1, h2, if_neg h3] at h

/-- Witness for C5: the not-fatal law discharged on a one-point
dataset. -/
theorem C5_calibration_not_fatal_witness :
    ([((1 : ℚ), (2 : ℚ))]).length < 2 ∧
    buildInterp [((1 : ℚ), (2 : ℚ))] = .error .buildValueError ∧
    startupCalibration [((1 : ℚ), (2 : ℚ))] = .ok none :=
  ⟨by norm_num,
    (C5_calibration_not_fatal.1 [(1, 2)] (by norm_num)).1,
    (C5_calibration_not_fatal.1 [(1, 2)] (by norm_num)).2⟩

/-- Claim C7 (confirmed): Scenario A — excitation 2.5 V, reference
resistance 10 kΩ, raw reading 1250 mV gives derived voltage 1.25 V and
resistance exactly 10000 Ω; with any calibration table whose lookup
maps 10 kΩ to 25 °C, the conversion returns the pair
(temperature 25, resistance 10000). -/
theorem C7_scenarioA :
    ∀ tbl : List (ℚ × ℚ),
      interpLookup tbl 10000 = .ok 25 →
      convertOne cfgC (some tbl) (1250, 0) = .ok (25, 10000) ∧
      (1250 : ℚ) / 1000 = 5 / 4 := by
  intro tbl h
  refine ⟨?_, by norm_num⟩
  norm_num [convertOne, cfgC, pyIndex, pyGetQ, h]

/-- Witness for C7: the scenario discharged with the concrete table
that interpolates 10 kΩ to 25 °C. -/
theorem C7_scenarioA_witness :
    interpLookup tblA 10000 = .ok 25 ∧
    (convertOne cfgC (some tblA) (1250, 0) = .ok (25, 10000) ∧
      (1250 : ℚ) / 1000 = 5 / 4) :=
  ⟨by norm_num [interpLookup, interpGo, tblA],
    C7_scenarioA tblA (by norm_num [interpLookup, interpGo, tblA])⟩

end TempMonitor
